import Mathlib

/-!
Verification of the Mallard pluggable streaming data-exchange server
(DuckDB Arrow Flight server). The definitions below are a shallow
embedding of the dispatch, registration, ingestion, retrieval,
authentication and lifecycle logic of src/flight/flight_server.py and of
the variant src/flight_server.py, with the external transport and the
embedded SQL engine treated as black boxes (modeled as parameters).
-/

namespace Mallard

/-- A scalar value inside a columnar record batch. -/
inductive Value where
  | vBool (b : Bool)
  | vInt (n : Int)
  | vStr (s : String)
deriving DecidableEq, Repr

/-- An Arrow table or record batch: a schema of column names together with
row-major rows. -/
structure ATable where
  schema : List String
  rows : List (List Value)
deriving DecidableEq, Repr

/-- Number of rows of a table, as num_rows in pyarrow. -/
def ATable.numRows (t : ATable) : Nat := t.rows.length

/-- pa.Table.from_batches: concatenation of record batches sharing one
schema (the schema of the first batch). -/
def fromBatches (batches : List ATable) : ATable :=
  { schema := ((batches.head?).map ATable.schema).getD []
    rows := (batches.map ATable.rows).flatten }

/-- Total number of rows across a list of batches. -/
def totalRows (batches : List ATable) : Nat :=
  (batches.map ATable.numRows).sum

/-- pa.Table.append_column: the named column is appended on the right,
pairing each row with the corresponding value. -/
def ATable.appendColumn (t : ATable) (name : String) (vals : List Value) : ATable :=
  { schema := t.schema ++ [name]
    rows := t.rows.zipWith (fun r v => r ++ [v]) vals }

/-- Association list lookup with string keys, modeling Python dict access
(dict keys are unique, so the first match is the binding). -/
def dictGet {α : Type} (r : List (String × α)) (k : String) : Option α :=
  (r.find? (fun p => p.1 = k)).map (fun p => p.2)

/-- Python dict membership test. -/
def dictHasKey {α : Type} (r : List (String × α)) (k : String) : Bool :=
  r.any (fun p => p.1 = k)

/-- Python dict assignment d[k] = v: an existing binding is overwritten in
place, a new binding is appended at the end (insertion order preserved). -/
def dictInsert {α : Type} (r : List (String × α)) (k : String) (v : α) :
    List (String × α) :=
  if dictHasKey r k then r.map (fun p => if p.1 = k then (k, v) else p)
  else r ++ [(k, v)]

/-- The keys of a dict in insertion order, as list(d.keys()). -/
def dictKeys {α : Type} (r : List (String × α)) : List String :=
  r.map (fun p => p.1)

/-- An exchanger handler instance held in the registry: the built-in
MyStreamingExchanger, or a custom AbstractExchanger subclass instance
deserialized from an administrative payload (identified here by its
declared command together with an abstract identity). -/
inductive ExchangerImpl where
  | myStreaming
  | custom (cmd : String) (id : Nat)
deriving DecidableEq, Repr

/-- The command attribute of MyStreamingExchanger
(src/flight/flight_server.py line 51). -/
def myStreamingCommand : String := "my_streaming_exchanger"

/-- The command attribute declared by an exchanger instance. -/
def ExchangerImpl.command : ExchangerImpl → String
  | .myStreaming => myStreamingCommand
  | .custom c _ => c

/-- The per-instance exchanger registry self.exchangers: a Python dict
from command string to exchanger instance. -/
abbrev Registry := List (String × ExchangerImpl)

/-- ASCII upper-casing of a string, as Python str.upper acts on the ASCII
command and keyword strings involved here. -/
def upperStr (s : String) : String := String.mk (s.toList.map Char.toUpper)

/-- ASCII lower-casing of a string, as Python str.lower acts on the ASCII
header keys involved here. -/
def lowerStr (s : String) : String := String.mk (s.toList.map Char.toLower)

/-- Python str.startswith. -/
def strStartsWith (s pre : String) : Bool := pre.toList.isPrefixOf s.toList

/-- Python str.strip: leading and trailing whitespace removed. -/
def stripStr (s : String) : String :=
  String.mk
    (((s.toList.dropWhile Char.isWhitespace).reverse.dropWhile
      Char.isWhitespace).reverse)

/-- The SQL keywords recognized by DuckDBFlightServer._is_sql_query
(src/flight/flight_server.py lines 378-390). -/
def sqlKeywords : List String :=
  ["SELECT", "INSERT", "UPDATE", "DELETE", "CREATE", "DROP", "ALTER", "WITH"]

/-- DuckDBFlightServer._is_sql_query: does the upper-cased command start
with one of the recognized SQL keywords. -/
def isSqlQuery (command : String) : Bool :=
  sqlKeywords.any (fun kw => strStartsWith (upperStr command) kw)

/-- DuckDBFlightServer._is_ddl_statement (src/flight/flight_server.py
lines 425-427): the stripped, upper-cased query starts with CREATE, DROP
or ALTER. -/
def isDdlStatement (query : String) : Bool :=
  ["CREATE", "DROP", "ALTER"].any
    (fun kw => strStartsWith (upperStr (stripStr query)) kw)

/-- Possible outcomes of an exchange call, abstracting what
DuckDBFlightServer.do_exchange (src/flight/flight_server.py lines
347-376) does after decoding the descriptor command: invoke a registered
handler, execute the command as SQL and stream the result, or raise the
unknown-command server error whose message lists the currently available
commands. -/
inductive ExchangeOutcome where
  | handled (e : ExchangerImpl)
  | sqlExecuted (command : String)
  | unknownCommand (command : String) (available : List String)
deriving DecidableEq, Repr

/-- DuckDBFlightServer.do_exchange dispatch (src/flight/flight_server.py
lines 347-376): the registry is consulted first; only when the command is
not a key does the SQL-keyword test run; otherwise the call fails listing
the registered commands. Identical in src/flight_server.py lines 301-318. -/
def doExchange (exchangers : Registry) (command : String) : ExchangeOutcome :=
  match dictGet exchangers command with
  | some e => ExchangeOutcome.handled e
  | none =>
    if isSqlQuery command then ExchangeOutcome.sqlExecuted command
    else ExchangeOutcome.unknownCommand command (dictKeys exchangers)

/-- The deserialized body of an add_exchange administrative action:
either a class satisfying the exchanger contract, that is a subclass of
AbstractExchanger whose instance declares a command, or any other
deserialized object. -/
inductive PluginPayload where
  | validExchanger (e : ExchangerImpl)
  | notAnExchanger (id : Nat)
deriving DecidableEq, Repr

/-- Errors raised by DuckDBFlightServer.do_action: the ValueError for a
payload failing the exchanger contract (InvalidPluginError of the spec),
and the server error for an unrecognized action type. -/
inductive ActionError where
  | invalidPlugin (msg : String)
  | unknownAction (actionType : String)
deriving DecidableEq, Repr

/-- DuckDBFlightServer._handle_add_exchange (src/flight/flight_server.py
lines 515-533, identically src/flight_server.py lines 418-427): a payload
passing the issubclass check is instantiated and stored in the registry
keyed by its declared command, and a success result naming the command is
returned; otherwise ValueError is raised before any mutation, so the
registry component of the result is the input registry unchanged. -/
def handleAddExchange (exchangers : Registry) (payload : PluginPayload) :
    Registry × Except ActionError String :=
  match payload with
  | .validExchanger e =>
      (dictInsert exchangers e.command e, Except.ok ("Registered " ++ e.command))
  | .notAnExchanger _ =>
      (exchangers,
       Except.error (ActionError.invalidPlugin
         "Exchanger must be a subclass of AbstractExchanger"))

/-- The name attribute of AddExchangeAction. -/
def addExchangeActionName : String := "add_exchange"

/-- DuckDBFlightServer.do_action (src/flight/flight_server.py lines
490-513): the decoded action type add_exchange routes to
_handle_add_exchange, any other type raises the unknown-action error and
leaves the registry untouched. -/
def doAction (exchangers : Registry) (actionType : String)
    (payload : PluginPayload) : Registry × Except ActionError String :=
  if actionType = addExchangeActionName then handleAddExchange exchangers payload
  else (exchangers, Except.error (ActionError.unknownAction actionType))

/-- What an exchange writer has carried once the handler returns: the
schema given to writer.begin, the rows written through write_batch in
order, and whether writer.close was reached. -/
structure ExchangeOutput where
  schema : List String
  rows : List (List Value)
  closed : Bool
deriving DecidableEq, Repr

/-- MyStreamingExchanger.exchange_f (src/flight/flight_server.py lines
53-115, identically src/flight_server.py lines 55-104). The read loop
collects chunks until StopIteration or until a chunk with zero rows
arrives, which breaks the loop without keeping that chunk: the collected
input is the longest prefix of nonzero-row batches. With nothing
collected the writer is begun with an empty schema and closed.
Otherwise the batches are combined with from_batches, an all-true boolean
column named processed is appended, and the result is streamed back. The read-loop guard chunk.data.num_rows == 0 is the negation of
this predicate. -/
def nonEmptyBatch (b : ATable) : Bool := b.numRows != 0

/-- Body of MyStreamingExchanger.exchange_f over the collected prefix. -/
def myStreamingExchange (incoming : List ATable) : ExchangeOutput :=
  match incoming.takeWhile nonEmptyBatch with
  | [] => { schema := [], rows := [], closed := true }
  | b :: rest =>
    let tableIn := fromBatches (b :: rest)
    let tableOut := tableIn.appendColumn "processed"
        (List.replicate tableIn.numRows (Value.vBool true))
    { schema := tableOut.schema, rows := tableOut.rows, closed := true }

/-- The observable catalog state of the embedded engine for ingestion: a
mapping from table name to current row count. -/
abbrev DB := List (String × Nat)

/-- Row count of a table, none when the table does not exist. -/
def dbRowCount (db : DB) (t : String) : Option Nat := dictGet db t

/-- Row count of a table, zero when the table does not exist. -/
def dbRowCountD (db : DB) (t : String) : Nat := (dbRowCount db t).getD 0

/-- DuckDBFlightServer._insert_table (src/flight/flight_server.py lines
468-488): CREATE TABLE IF NOT EXISTS target AS SELECT * FROM temp LIMIT 0
followed by INSERT INTO target SELECT * FROM temp, so an existing table
gains the incoming rows and an absent table is created empty and then
filled with them. -/
def insertTable (db : DB) (t : String) (n : Nat) : DB :=
  if dictHasKey db t then
    db.map (fun p => if p.1 = t then (p.1, p.2 + n) else p)
  else db ++ [(t, n)]

/-- DuckDBFlightServer.do_put (src/flight/flight_server.py lines 434-466):
the reader is drained to StopIteration, keeping only chunks with at least
one row; when nothing was kept the call returns after a log line without
touching the engine; otherwise the kept batches are concatenated and
handed to _insert_table under the descriptor name. -/
def doPut (db : DB) (tableName : String) (incoming : List ATable) : DB :=
  match incoming.filter (fun b => b.numRows > 0) with
  | [] => db
  | b :: rest => insertTable db tableName (fromBatches (b :: rest)).numRows

/-- Reply of a do_get call: the single-row status batch of a DDL ticket,
or the Arrow table produced by the engine for a query ticket. -/
inductive GetReply where
  | ddlStatus (batch : ATable)
  | queryResult (t : ATable)
deriving DecidableEq, Repr

/-- The status batch pa.table with one column named status holding the
single row OK (src/flight/flight_server.py line 432). -/
def statusOkBatch : ATable := { schema := ["status"], rows := [[Value.vStr "OK"]] }

/-- DuckDBFlightServer.do_get (src/flight/flight_server.py lines
407-432), parametric in the embedded engine, which is a black box: runSql
models db_conn.sql(q).fetch_arrow_table, and execDdl models
db_conn.execute(q) together with the catalog state it leaves behind.
A DDL ticket is executed and acknowledged with the status batch; any
other ticket is executed as a query whose result table is returned
unchanged; an engine failure on either path propagates to the caller. -/
def doGet {σ : Type} (runSql : String → Except String ATable)
    (execDdl : String → Except String σ) (engineState : σ)
    (ticket : String) : Except String (σ × GetReply) :=
  if isDdlStatement ticket then
    match execDdl ticket with
    | Except.error e => Except.error e
    | Except.ok st => Except.ok (st, GetReply.ddlStatus statusOkBatch)
  else
    match runSql ticket with
    | Except.error e => Except.error e
    | Except.ok t => Except.ok (engineState, GetReply.queryResult t)

/-- Python str.partition at the first occurrence of a separator character,
returning the text before it and the text after it; when the separator is
absent the whole string is the first component and the second is empty. -/
def partitionFirst (s : String) (sep : Char) : String × String :=
  (String.mk (s.toList.takeWhile (fun c => c ≠ sep)),
   String.mk ((s.toList.dropWhile (fun c => c ≠ sep)).drop 1))

/-- Extraction of the authorization header value, case-insensitive in the
key, as in AuthMiddlewareFactory.start_call lines 133-135. -/
def findAuthHeader (headers : List (String × String)) : Option String :=
  ((headers.find? (fun p => lowerStr p.1 = "authorization")).map (fun p => p.2))

/-- State owned by AuthMiddlewareFactory: the injected credential mapping
and the in-memory token table from issued bearer token to username. -/
structure AuthFactoryState where
  credentials : List (String × String)
  tokens : List (String × String)
deriving DecidableEq, Repr

/-- AuthMiddlewareFactory._handle_basic_auth (src/flight/flight_server.py
lines 150-166). The base64 decoding of the header value is external, so
it enters as a parameter; a decoding failure lands in the except branch,
which re-raises the unauthenticated error with the message Authentication
failed, as does a failed password comparison (the inner raise is caught
by the same except branch). Only on success is a fresh token recorded in
the token table. freshToken models secrets.token_urlsafe(32). -/
def handleBasicAuth (st : AuthFactoryState) (b64decode : String → Option String)
    (freshToken : String) (value : String) :
    AuthFactoryState × Except String String :=
  match b64decode value with
  | none => (st, Except.error "Authentication failed")
  | some decoded =>
    let up := partitionFirst decoded ':'
    if dictGet st.credentials up.1 = some up.2 then
      ({ st with tokens := dictInsert st.tokens freshToken up.1 },
       Except.ok freshToken)
    else (st, Except.error "Authentication failed")

/-- AuthMiddlewareFactory._handle_token_auth (src/flight/flight_server.py
lines 168-174): an unknown bearer token is rejected, a known one is
accepted reusing its identity, with no state change. -/
def handleTokenAuth (st : AuthFactoryState) (token : String) :
    AuthFactoryState × Except String String :=
  match dictGet st.tokens token with
  | none => (st, Except.error "Invalid token")
  | some _ => (st, Except.ok token)

/-- AuthMiddlewareFactory.start_call (src/flight/flight_server.py lines
131-148): a missing authorization header, or a scheme other than Basic or
Bearer, is rejected; otherwise the value after the first space goes to
the matching handler. The result carries the possibly updated factory
state and either the accepted token or the unauthenticated error
message. -/
def startCall (st : AuthFactoryState) (b64decode : String → Option String)
    (freshToken : String) (authHeader : Option String) :
    AuthFactoryState × Except String String :=
  match authHeader with
  | none => (st, Except.error "No credentials supplied")
  | some header =>
    let tv := partitionFirst header ' '
    if tv.1 = "Basic" then handleBasicAuth st b64decode freshToken tv.2
    else if tv.1 = "Bearer" then handleTokenAuth st tv.2
    else (st, Except.error "Invalid authentication type")

/-- The per-call-relevant state of one DuckDBFlightServer instance: its
exchanger registry, whether auth middleware is installed, and the
middleware factory state. -/
structure ServerState where
  exchangers : Registry
  authEnabled : Bool
  auth : AuthFactoryState
deriving DecidableEq, Repr

/-- A protocol request reaching the dispatcher. -/
inductive CallRequest where
  | exchange (command : String)
  | adminAction (actionType : String) (payload : PluginPayload)
deriving DecidableEq, Repr

/-- A protocol reply from the dispatcher. -/
inductive CallReply where
  | exchangeReply (o : ExchangeOutcome)
  | actionReply (r : Except ActionError String)
deriving Repr

/-- Dispatch of an authenticated call to the protocol handler, returning
the updated server state, the list of SQL texts executed against the
engine during the call, and the reply. -/
def dispatchCall (s : ServerState) (req : CallRequest) :
    ServerState × List String × CallReply :=
  match req with
  | CallRequest.exchange cmd =>
    match doExchange s.exchangers cmd with
    | ExchangeOutcome.sqlExecuted q =>
        (s, [q], CallReply.exchangeReply (ExchangeOutcome.sqlExecuted q))
    | o => (s, [], CallReply.exchangeReply o)
  | CallRequest.adminAction ty payload =>
    let ra := doAction s.exchangers ty payload
    ({ s with exchangers := ra.1 }, [], CallReply.actionReply ra.2)

/-- One complete call as the transport runs it: when auth middleware is
installed (config.auth_enabled, src/flight/flight_server.py lines
254-255), start_call runs before the protocol handler and a raised
unauthenticated error aborts the call, so the dispatcher never runs;
otherwise the dispatcher handles the request. -/
def serverCall (s : ServerState) (b64decode : String → Option String)
    (freshToken : String) (headers : List (String × String))
    (req : CallRequest) : ServerState × List String × Except String CallReply :=
  if s.authEnabled then
    match startCall s.auth b64decode freshToken (findAuthHeader headers) with
    | (auth2, Except.error msg) =>
        ({ s with auth := auth2 }, [], Except.error msg)
    | (auth2, Except.ok _) =>
        let r := dispatchCall { s with auth := auth2 } req
        (r.1, r.2.1, Except.ok r.2.2)
  else
    let r := dispatchCall s req
    (r.1, r.2.1, Except.ok r.2.2)

/-- Lifecycle-relevant state of one DuckDBFlightServer instance for
shutdown (src/flight/flight_server.py lines 241-264 and 318-342):
the _shutdown_requested and _running flags, plus counters for how many
times the Flight base server was shut down and the engine connection
closed. -/
structure SrvState where
  shutdownRequested : Bool
  running : Bool
  flightShutdownCount : Nat
  dbCloseCount : Nat
deriving DecidableEq, Repr

/-- DuckDBFlightServer.shutdown (src/flight/flight_server.py lines
318-342): the whole body is guarded by the _shutdown_requested flag, so
a repeated call takes the false branch of the guard and does nothing, in
particular it raises nothing and closes nothing a second time. The first
call sets the flag, shuts the Flight server down, closes the database
connection once and clears _running. -/
def SrvState.shutdown (s : SrvState) : SrvState :=
  if s.shutdownRequested then s
  else
    { shutdownRequested := true
      running := false
      flightShutdownCount := s.flightShutdownCount + 1
      dbCloseCount := s.dbCloseCount + 1 }

/-- One entry of ServerManager.running_servers: the server state, its
identifier, and whether its serving thread exits within the join
timeout. -/
structure RunningServer where
  srv : SrvState
  serverId : String
  exitsWithinTimeout : Bool
deriving DecidableEq, Repr

/-- ServerManager state: the shared shutdown event and the list of
running servers (src/flight/flight_server.py lines 545-549). -/
structure Manager where
  shutdownEventSet : Bool
  runningServers : List RunningServer
deriving DecidableEq, Repr

/-- The bounded join timeout passed to thread.join in
ServerManager.shutdown_servers (src/flight/flight_server.py line 614). -/
def joinTimeoutSeconds : Nat := 5

/-- Result of ServerManager.shutdown_servers: the final manager state,
the post-shutdown server states, the warnings logged for threads still
alive after the bounded join, and the timeout that was used. -/
structure ShutdownReport where
  manager : Manager
  finalStates : List SrvState
  warnings : List String
  joinTimeout : Nat
deriving DecidableEq, Repr

/-- ServerManager.shutdown_servers (src/flight/flight_server.py lines
600-626): the shutdown event is set, every server is shut down and its
thread joined with the bounded five second timeout, a warning is logged
for every thread still alive afterwards, and the running list is
cleared. The procedure always runs to completion over the whole list. -/
def shutdownServers (m : Manager) : ShutdownReport :=
  let after := m.runningServers.map (fun rs => { rs with srv := rs.srv.shutdown })
  { manager := { shutdownEventSet := true, runningServers := [] }
    finalStates := after.map (fun rs => rs.srv)
    warnings := after.filterMap (fun rs =>
        if rs.exitsWithinTimeout then none
        else some ("Server thread for " ++ rs.serverId ++ " did not exit in time"))
    joinTimeout := joinTimeoutSeconds }

/-- The registry of a DuckDBFlightServer of src/flight/flight_server.py
right after construction: line 262 initializes self.exchangers to the
empty dict and the constructor registers nothing. -/
def flightVariantInitRegistry : Registry := []

/-- The registry of a DuckDBFlightServer of src/flight_server.py right
after construction: the constructor calls _register_default_exchangers
(lines 252 and 255-261), installing MyStreamingExchanger under its
command, before any serving starts. -/
def legacyVariantInitRegistry : Registry :=
  dictInsert [] myStreamingCommand ExchangerImpl.myStreaming

/-- The registry contents of one server instance at the three successive
points of its startup sequence: after the constructor returns, at the
moment the serving thread is started, and after the start procedure of
the manager completes. -/
structure StartupTrace where
  registryAtConstruction : Registry
  registryAtServeStart : Registry
  registryAfterStartServer : Registry
deriving DecidableEq, Repr

/-- ServerManager._start_server of src/flight/flight_server.py lines
569-589: the server is constructed with an empty registry, serve() then
starts the serving thread, and only afterwards does
_register_default_exchangers (lines 591-598) install the default
exchanger, so at the moment serving begins the registry is still
empty. -/
def flightVariantStartup : StartupTrace :=
  { registryAtConstruction := flightVariantInitRegistry
    registryAtServeStart := flightVariantInitRegistry
    registryAfterStartServer :=
      dictInsert flightVariantInitRegistry myStreamingCommand
        ExchangerImpl.myStreaming }

/-- FlightServerManager._start_server of src/flight_server.py lines
454-458: the constructor has already installed the default exchanger, so
it is present at construction, when serving starts, and afterwards. -/
def legacyVariantStartup : StartupTrace :=
  { registryAtConstruction := legacyVariantInitRegistry
    registryAtServeStart := legacyVariantInitRegistry
    registryAfterStartServer := legacyVariantInitRegistry }

/-- The sixteen lowercase hexadecimal digits. -/
def hexChars : List Char := "0123456789abcdef".toList

/-- Hexadecimal digit for an index below sixteen (out-of-range indices
give the digit 0, which never happens for byte nibbles). -/
def hexDigitChar (n : Nat) : Char := hexChars.getD n '0'

/-- The two lowercase hex digits of one byte. -/
def hexPair (b : Nat) : List Char :=
  [hexDigitChar (b % 256 / 16), hexDigitChar (b % 16)]

/-- Characters of secrets.token_hex applied to the given random bytes. -/
def tokenHexChars (bs : List Nat) : List Char := bs.flatMap hexPair

/-- secrets.token_hex: each random byte becomes two lowercase hex
digits. The call token_hex(4) draws four bytes. -/
def tokenHex (bs : List Nat) : String := String.mk (tokenHexChars bs)

/-- The credential fallback of ServerConfig.__init__. -/
def defaultCredentials : List (String × String) := [("admin", "password123")]

/-- Configuration of one server instance, as the ServerConfig class of
src/flight/flight_server.py (and identically the FlightServerConfig
class of src/flight_server.py). -/
structure ServerConfig where
  location : String
  dbPath : String
  serverId : String
  authEnabled : Bool
  credentials : List (String × String)
deriving DecidableEq, Repr

/-- ServerConfig.__init__ (src/flight/flight_server.py lines 197-209,
identically FlightServerConfig.__init__ in src/flight_server.py lines
195-207). The Python or-defaults are modeled with their exact
truthiness: a missing or empty server_id falls back to
secrets.token_hex(4) of the fresh random bytes, and a missing or empty
credentials dict falls back to the single admin entry. -/
def mkServerConfig (location : String) (dbPath : String)
    (serverId : Option String) (authEnabled : Bool)
    (credentials : Option (List (String × String))) (randBytes : List Nat) :
    ServerConfig :=
  { location := location
    dbPath := dbPath
    serverId :=
      match serverId with
      | none => tokenHex randBytes
      | some s => if s = "" then tokenHex randBytes else s
    authEnabled := authEnabled
    credentials :=
      match credentials with
      | none => defaultCredentials
      | some c => if c = [] then defaultCredentials else c }

end Mallard

namespace Mallard

/-- A find over the overwrite-mapped list locates the overwritten binding
whenever the key was present. -/
theorem find?_map_overwrite {α : Type} (k : String) (v : α) :
    ∀ r : List (String × α), dictHasKey r k = true →
      (r.map (fun p => if p.1 = k then (k, v) else p)).find?
          (fun p => p.1 = k) = some (k, v) := by
  intro r
  induction r with
  | nil => intro h; simp [dictHasKey] at h
  | cons a t ih =>
    intro h
    by_cases hk : a.1 = k
    · simp [hk]
    · have h' : dictHasKey t k = true := by
        simpa [dictHasKey, hk] using h
      simpa [hk] using ih h'

/-- Overwriting the k-binding leaves lookups of other keys unchanged. -/
theorem find?_map_overwrite_ne {α : Type} (k q : String) (v : α) (hne : q ≠ k) :
    ∀ r : List (String × α),
      (r.map (fun p => if p.1 = k then (k, v) else p)).find?
          (fun p => p.1 = q) = r.find? (fun p => p.1 = q) := by
  intro r
  induction r with
  | nil => rfl
  | cons a t ih =>
    by_cases hk : a.1 = k
    · have haq : ¬ a.1 = q := by
        rw [hk]; exact fun hkq => hne hkq.symm
      have hkv : ¬ (((k, v) : String × α).1 = q) := fun hkq => hne hkq.symm
      simp only [List.map_cons, if_pos hk]
      rw [List.find?_cons_of_neg _ (by simpa using hkv),
        List.find?_cons_of_neg _ (by simpa using haq), ih]
    · by_cases haq : a.1 = q
      · simp only [List.map_cons, if_neg hk]
        rw [List.find?_cons_of_pos _ (by simpa using haq),
          List.find?_cons_of_pos _ (by simpa using haq)]
      · simp only [List.map_cons, if_neg hk]
        rw [List.find?_cons_of_neg _ (by simpa using haq),
          List.find?_cons_of_neg _ (by simpa using haq), ih]

/-- Appending a fresh binding is found when no earlier binding matches. -/
theorem find?_append_fresh {α : Type} (k : String) (v : α) :
    ∀ r : List (String × α), dictHasKey r k = false →
      (r ++ [(k, v)]).find? (fun p => p.1 = k) = some (k, v) := by
  intro r
  induction r with
  | nil => intro _; simp
  | cons a t ih =>
    intro h
    have hk : ¬ a.1 = k := by
      intro hak
      simp [dictHasKey, hak] at h
    have h' : dictHasKey t k = false := by
      have := h
      simp [dictHasKey, hk] at this
      simpa [dictHasKey] using this
    simpa [hk] using ih h'

/-- Lookup after dict assignment of the same key yields the new value. -/
theorem dictGet_dictInsert_self {α : Type} (r : List (String × α)) (k : String)
    (v : α) : dictGet (dictInsert r k v) k = some v := by
  unfold dictInsert
  by_cases h : dictHasKey r k
  · rw [if_pos h]
    unfold dictGet
    rw [find?_map_overwrite k v r h]
    rfl
  · rw [if_neg h]
    unfold dictGet
    rw [find?_append_fresh k v r (by simpa using Bool.of_not_eq_true h)]
    rfl

/-- Dict assignment does not touch bindings of other keys. -/
theorem dictGet_dictInsert_ne {α : Type} (r : List (String × α)) (k q : String)
    (v : α) (hne : q ≠ k) : dictGet (dictInsert r k v) q = dictGet r q := by
  unfold dictInsert
  by_cases h : dictHasKey r k
  · rw [if_pos h]
    unfold dictGet
    rw [find?_map_overwrite_ne k q v hne r]
  · rw [if_neg h]
    unfold dictGet
    have hkq : ¬ (k = q) := fun hkq => hne hkq.symm
    have hnone : ([(k, v)] : List (String × α)).find? (fun p => p.1 = q) = none := by
      simp [hkq]
    rw [List.find?_append, hnone]
    cases r.find? (fun p => p.1 = q) <;> rfl

/-- Zipping a list against a replicate of its own length is a map. -/
theorem zipWith_replicate_self_length {α β γ : Type} (f : α → β → γ) (x : β) :
    ∀ l : List α,
      List.zipWith f l (List.replicate l.length x) = l.map (fun a => f a x) := by
  intro l
  induction l with
  | nil => rfl
  | cons a t ih => simp [List.replicate_succ, ih]

/-- Concatenating batches preserves the total number of rows. -/
theorem fromBatches_numRows :
    ∀ bs : List ATable, (fromBatches bs).numRows = totalRows bs := by
  intro bs
  induction bs with
  | nil => rfl
  | cons b l ih =>
    simp only [fromBatches, ATable.numRows, totalRows, List.map_cons,
      List.flatten_cons, List.length_append, List.sum_cons] at ih ⊢
    omega

/-- Discarding the zero-row batches does not change the total row count. -/
theorem totalRows_filter_pos :
    ∀ bs : List ATable,
      totalRows (bs.filter (fun b => b.numRows > 0)) = totalRows bs := by
  intro bs
  induction bs with
  | nil => rfl
  | cons b l ih =>
    by_cases hb : b.numRows > 0
    · rw [List.filter_cons_of_pos (by simpa using hb)]
      simp only [totalRows, List.map_cons, List.sum_cons] at ih ⊢
      omega
    · have hz : b.numRows = 0 := Nat.eq_zero_of_not_pos hb
      rw [List.filter_cons_of_neg (by simpa using hb)]
      simp only [totalRows, List.map_cons, List.sum_cons] at ih ⊢
      omega

/-- A find over the count-increasing map commutes with the original find. -/
theorem find?_map_addcount (t : String) (n : Nat) :
    ∀ db : List (String × Nat),
      (db.map (fun p => if p.1 = t then (p.1, p.2 + n) else p)).find?
          (fun p => p.1 = t) =
        (db.find? (fun p => p.1 = t)).map (fun p => (p.1, p.2 + n)) := by
  intro db
  induction db with
  | nil => rfl
  | cons a l ih =>
    by_cases ha : a.1 = t
    · simp only [List.map_cons, if_pos ha]
      rw [List.find?_cons_of_pos _ (by simpa using ha),
        List.find?_cons_of_pos _ (by simpa using ha)]
      rfl
    · simp only [List.map_cons, if_neg ha]
      rw [List.find?_cons_of_neg _ (by simpa using ha),
        List.find?_cons_of_neg _ (by simpa using ha), ih]

/-- Inserting n rows makes the target table present with its previous
count (zero when absent) increased by n. -/
theorem dbRowCount_insertTable_self (db : DB) (t : String) (n : Nat) :
    dbRowCount (insertTable db t n) t = some (dbRowCountD db t + n) := by
  unfold insertTable
  by_cases h : dictHasKey db t
  · rw [if_pos h]
    unfold dbRowCount dictGet
    rw [find?_map_addcount]
    rcases hf : db.find? (fun p => p.1 = t) with _ | p
    · exfalso
      rw [List.find?_eq_none] at hf
      have hex : ∃ x, (t, x) ∈ db := by simpa [dictHasKey] using h
      rcases hex with ⟨x, hx⟩
      exact (by simpa using hf (t, x) hx : ¬ (t = t)) rfl
    · simp [dbRowCountD, dbRowCount, dictGet, hf]
  · rw [if_neg h]
    have hfalse : dictHasKey db t = false := Bool.of_not_eq_true h
    have hall : ∀ a b, (a, b) ∈ db → ¬ a = t := by
      simpa [dictHasKey] using hfalse
    have hnone : db.find? (fun p => p.1 = t) = none := by
      rw [List.find?_eq_none]
      intro x hx
      simpa using hall x.1 x.2 (by simpa using hx)
    unfold dbRowCount dictGet
    rw [find?_append_fresh t n db hfalse]
    simp [dbRowCountD, dbRowCount, dictGet, hnone]

/-- Every hexadecimal digit character produced is one of the sixteen
lowercase hex digits. -/
theorem hexDigitChar_mem (n : Nat) : hexDigitChar n ∈ hexChars := by
  by_cases h : n < 16
  · interval_cases n <;> decide
  · have hlen : hexChars.length ≤ n := by
      have h16 : hexChars.length = 16 := rfl
      omega
    have h2 : hexChars[n]? = none := List.getElem?_eq_none hlen
    have : hexDigitChar n = '0' := by
      simp [hexDigitChar, List.getD, h2]
    rw [this]
    decide

/-- token_hex produces two characters per byte. -/
theorem tokenHexChars_length :
    ∀ bs : List Nat, (tokenHexChars bs).length = 2 * bs.length := by
  intro bs
  induction bs with
  | nil => rfl
  | cons b l ih =>
    simp only [tokenHexChars, List.flatMap_cons, List.length_append,
      List.length_cons, hexPair, List.length_nil] at ih ⊢
    omega

/-- C1: Exchange dispatch follows the fixed lookup order. A command that is
a key of the exchanger registry always routes to the registered handler,
with no assumption on whether the command also reads as SQL; an
unregistered command beginning with a recognized SQL keyword is executed
as a query; any other command fails with the unknown-command error whose
reported list is exactly the currently registered commands. -/
theorem exchange_dispatch_follows_lookup_order
    (exchangers : Registry) (cmd : String) :
    (∀ e, dictGet exchangers cmd = some e →
      doExchange exchangers cmd = ExchangeOutcome.handled e) ∧
    (dictGet exchangers cmd = none → isSqlQuery cmd = true →
      doExchange exchangers cmd = ExchangeOutcome.sqlExecuted cmd) ∧
    (dictGet exchangers cmd = none → isSqlQuery cmd = false →
      doExchange exchangers cmd =
        ExchangeOutcome.unknownCommand cmd (dictKeys exchangers)) := by
  refine ⟨?_, ?_, ?_⟩
  · intro e h
    simp [doExchange, h]
  · intro h hsql
    simp [doExchange, h, hsql]
  · intro h hsql
    simp [doExchange, h, hsql]

/-- Witness for C1: a registered command that is syntactically valid SQL
still routes to its handler; the unregistered SQL text takes the query
path; an unregistered non-SQL command reports the registered commands. -/
theorem exchange_dispatch_follows_lookup_order_witness :
    doExchange [("SELECT 1", ExchangerImpl.custom "SELECT 1" 0)] "SELECT 1" =
      ExchangeOutcome.handled (ExchangerImpl.custom "SELECT 1" 0) ∧
    isSqlQuery "SELECT 1" = true ∧
    doExchange [] "SELECT 1" = ExchangeOutcome.sqlExecuted "SELECT 1" ∧
    doExchange [("SELECT 1", ExchangerImpl.custom "SELECT 1" 0)] "bogus" =
      ExchangeOutcome.unknownCommand "bogus" ["SELECT 1"] :=
  ⟨(exchange_dispatch_follows_lookup_order
      [("SELECT 1", ExchangerImpl.custom "SELECT 1" 0)] "SELECT 1").1
      (ExchangerImpl.custom "SELECT 1" 0) rfl,
   by decide,
   (exchange_dispatch_follows_lookup_order [] "SELECT 1").2.1 rfl (by decide),
   (exchange_dispatch_follows_lookup_order
      [("SELECT 1", ExchangerImpl.custom "SELECT 1" 0)] "bogus").2.2 rfl
      (by decide)⟩

/-- C2: an Administer call with action type add_exchange and a payload
satisfying the exchanger contract returns the success result, installs
the handler under its declared command overwriting any prior binding of
that command, leaves every other command binding untouched, and makes the
command route to the new handler in subsequent exchange dispatch on the
same registry; a payload failing the contract yields the invalid-plugin
error and returns the registry exactly unchanged. -/
theorem add_exchange_upsert_or_rejects (exchangers : Registry)
    (e : ExchangerImpl) (badId : Nat) :
    ((doAction exchangers addExchangeActionName
        (PluginPayload.validExchanger e)).2 =
      Except.ok ("Registered " ++ e.command)) ∧
    (dictGet (doAction exchangers addExchangeActionName
        (PluginPayload.validExchanger e)).1 e.command = some e) ∧
    (doExchange (doAction exchangers addExchangeActionName
        (PluginPayload.validExchanger e)).1 e.command =
      ExchangeOutcome.handled e) ∧
    (∀ k, k ≠ e.command →
      dictGet (doAction exchangers addExchangeActionName
        (PluginPayload.validExchanger e)).1 k = dictGet exchangers k) ∧
    (doAction exchangers addExchangeActionName
        (PluginPayload.notAnExchanger badId) =
      (exchangers, Except.error (ActionError.invalidPlugin
        "Exchanger must be a subclass of AbstractExchanger"))) := by
  have hact : ∀ p, doAction exchangers addExchangeActionName p =
      handleAddExchange exchangers p := by
    intro p
    simp [doAction]
  refine ⟨?_, ?_, ?_, ?_, ?_⟩
  · rw [hact]
    rfl
  · rw [hact]
    exact dictGet_dictInsert_self exchangers e.command e
  · rw [hact]
    simp [handleAddExchange, doExchange,
      dictGet_dictInsert_self exchangers e.command e]
  · intro k hk
    rw [hact]
    exact dictGet_dictInsert_ne exchangers e.command k e hk
  · rw [hact]
    rfl

/-- Witness for C2: registering a custom exchanger over a prior binding of
the same command on a concrete registry. -/
theorem add_exchange_upsert_or_rejects_witness :
    (doAction [("job", ExchangerImpl.custom "job" 1)] addExchangeActionName
        (PluginPayload.validExchanger (ExchangerImpl.custom "job" 2))).2 =
      Except.ok "Registered job" ∧
    dictGet (doAction [("job", ExchangerImpl.custom "job" 1)]
        addExchangeActionName
        (PluginPayload.validExchanger (ExchangerImpl.custom "job" 2))).1 "job" =
      some (ExchangerImpl.custom "job" 2) ∧
    dictGet (doAction [("job", ExchangerImpl.custom "job" 1)]
        addExchangeActionName
        (PluginPayload.validExchanger (ExchangerImpl.custom "job" 2))).1 "other" =
      dictGet [("job", ExchangerImpl.custom "job" 1)] "other" ∧
    doAction [("job", ExchangerImpl.custom "job" 1)] addExchangeActionName
        (PluginPayload.notAnExchanger 0) =
      ([("job", ExchangerImpl.custom "job" 1)],
       Except.error (ActionError.invalidPlugin
         "Exchanger must be a subclass of AbstractExchanger")) :=
  ⟨(add_exchange_upsert_or_rejects [("job", ExchangerImpl.custom "job" 1)]
      (ExchangerImpl.custom "job" 2) 0).1,
   (add_exchange_upsert_or_rejects [("job", ExchangerImpl.custom "job" 1)]
      (ExchangerImpl.custom "job" 2) 0).2.1,
   (add_exchange_upsert_or_rejects [("job", ExchangerImpl.custom "job" 1)]
      (ExchangerImpl.custom "job" 2) 0).2.2.2.1 "other" (by decide),
   (add_exchange_upsert_or_rejects [("job", ExchangerImpl.custom "job" 1)]
      (ExchangerImpl.custom "job" 2) 0).2.2.2.2⟩

/-- Counterexample for C8: in the src/flight/flight_server.py variant the
registry is still empty at the moment the serving thread starts, because
ServerManager._start_server calls serve() before
_register_default_exchangers; an exchange call with the built-in command
arriving in that window does not route to the default handler but fails
with the unknown-command error listing no commands. -/
theorem default_exchanger_missing_at_serve_start :
    dictGet flightVariantStartup.registryAtServeStart myStreamingCommand =
      none ∧
    doExchange flightVariantStartup.registryAtServeStart myStreamingCommand =
      ExchangeOutcome.unknownCommand myStreamingCommand [] := by
  exact ⟨rfl, by decide⟩

/-- C8 amended: once ServerManager._start_server completes, the registry
of the src/flight/flight_server.py variant contains the built-in
exchanger under its command and exchange dispatch routes it to the
default handler; in the src/flight_server.py variant the built-in
exchanger is already registered when the constructor returns, hence
before the serving thread starts, and dispatch routes to it from serve
start on. -/
theorem default_exchanger_present_after_startup :
    dictGet flightVariantStartup.registryAfterStartServer myStreamingCommand =
      some ExchangerImpl.myStreaming ∧
    doExchange flightVariantStartup.registryAfterStartServer
        myStreamingCommand =
      ExchangeOutcome.handled ExchangerImpl.myStreaming ∧
    dictGet legacyVariantStartup.registryAtConstruction myStreamingCommand =
      some ExchangerImpl.myStreaming ∧
    dictGet legacyVariantStartup.registryAtServeStart myStreamingCommand =
      some ExchangerImpl.myStreaming ∧
    doExchange legacyVariantStartup.registryAtServeStart myStreamingCommand =
      ExchangeOutcome.handled ExchangerImpl.myStreaming := by
  exact ⟨rfl, rfl, rfl, rfl, rfl⟩

/-- Counterexample for C4: an Ingest call delivering one batch of zero
rows (K = 1, N = 0) to an absent table performs no engine mutation at
all, in particular the named table is not created, whereas the claim
requires every call with K greater than zero to insert into the named
table, creating it if absent. The do_put loop keeps only chunks with at
least one row and treats an empty collection as the no-op case. -/
theorem ingest_empty_batch_creates_no_table :
    doPut [] "t" [{ schema := ["a"], rows := [] }] = [] ∧
    dbRowCount (doPut [] "t" [{ schema := ["a"], rows := [] }]) "t" = none := by
  exact ⟨rfl, rfl⟩

/-- C4 amended: do_put drains the input stream to exhaustion before any
insertion, keeping only the batches with at least one row; when none are
kept, in particular when K = 0, the call is a logged no-op leaving the
engine untouched and raising nothing; otherwise the kept batches are
concatenated and inserted into the table named by the descriptor,
creating it if absent; in every case the row count of the target table
(read as zero when the table is absent) increases by exactly the total
number N of incoming rows. -/
theorem ingest_rowcount_increases_by_total (db : DB) (t : String)
    (incoming : List ATable) :
    dbRowCountD (doPut db t incoming) t = dbRowCountD db t + totalRows incoming ∧
    (incoming.all (fun b => b.numRows = 0) = true → doPut db t incoming = db) ∧
    (incoming.filter (fun b => b.numRows > 0) ≠ [] →
      dbRowCount (doPut db t incoming) t ≠ none) := by
  refine ⟨?_, ?_, ?_⟩
  · rcases hf : incoming.filter (fun b => b.numRows > 0) with _ | ⟨b, rest⟩
    · have htot : totalRows incoming = 0 := by
        have := totalRows_filter_pos incoming
        rw [hf] at this
        simpa [totalRows] using this.symm
      simp [doPut, hf, htot]
    · have htot : totalRows (b :: rest) = totalRows incoming := by
        have := totalRows_filter_pos incoming
        rwa [hf] at this
      have hrows : (fromBatches (b :: rest)).numRows = totalRows incoming := by
        rw [fromBatches_numRows, htot]
      simp only [doPut, hf]
      rw [show dbRowCountD (insertTable db t (fromBatches (b :: rest)).numRows) t
          = dbRowCountD db t + (fromBatches (b :: rest)).numRows by
        simp [dbRowCountD, dbRowCount_insertTable_self], hrows]
  · intro hall
    have hf : incoming.filter (fun b => b.numRows > 0) = [] := by
      rw [List.filter_eq_nil_iff]
      intro a ha
      have := List.all_eq_true.mp hall a ha
      simp only [decide_eq_true_eq] at this
      simp [this]
    simp [doPut, hf]
  · intro hne
    rcases hf : incoming.filter (fun b => b.numRows > 0) with _ | ⟨b, rest⟩
    · exact absurd hf hne
    · simp only [doPut, hf]
      rw [dbRowCount_insertTable_self]
      exact Option.some_ne_none _

/-- Witness for C4 amended: a two-batch ingest of three rows into a table
holding two rows yields five, an all-empty stream is a no-op, and a
nonempty stream creates the absent table. -/
theorem ingest_rowcount_increases_by_total_witness :
    dbRowCountD (doPut [("t", 2)] "t"
      [{ schema := ["a"], rows := [[Value.vInt 1], [Value.vInt 2]] },
       { schema := ["a"], rows := [[Value.vInt 3]] }]) "t" =
      dbRowCountD [("t", 2)] "t" + totalRows
        [{ schema := ["a"], rows := [[Value.vInt 1], [Value.vInt 2]] },
         { schema := ["a"], rows := [[Value.vInt 3]] }] ∧
    doPut [("t", 2)] "t" [{ schema := ["a"], rows := [] }] = [("t", 2)] ∧
    dbRowCount (doPut [] "u" [{ schema := ["a"], rows := [[Value.vInt 1]] }]) "u" ≠
      none :=
  ⟨(ingest_rowcount_increases_by_total [("t", 2)] "t"
      [{ schema := ["a"], rows := [[Value.vInt 1], [Value.vInt 2]] },
       { schema := ["a"], rows := [[Value.vInt 3]] }]).1,
   (ingest_rowcount_increases_by_total [("t", 2)] "t"
      [{ schema := ["a"], rows := [] }]).2.1 (by decide),
   (ingest_rowcount_increases_by_total [] "u"
      [{ schema := ["a"], rows := [[Value.vInt 1]] }]).2.2 (by decide)⟩

/-- Counterexample for C5: the default exchanger read loop breaks at the
first zero-row chunk without reading further, so on an input stream of
two total rows with an empty batch in the middle the output carries one
row, not two: the input is not fully buffered and the output row count
differs from N. -/
theorem default_exchanger_truncates_at_zero_row_batch :
    totalRows [{ schema := ["a"], rows := [[Value.vInt 1]] },
      { schema := ["a"], rows := [] },
      { schema := ["a"], rows := [[Value.vInt 2]] }] = 2 ∧
    (myStreamingExchange [{ schema := ["a"], rows := [[Value.vInt 1]] },
      { schema := ["a"], rows := [] },
      { schema := ["a"], rows := [[Value.vInt 2]] }]).rows.length = 1 ∧
    (myStreamingExchange [{ schema := ["a"], rows := [[Value.vInt 1]] },
      { schema := ["a"], rows := [] },
      { schema := ["a"], rows := [[Value.vInt 2]] }]).rows.length ≠
      totalRows [{ schema := ["a"], rows := [[Value.vInt 1]] },
        { schema := ["a"], rows := [] },
        { schema := ["a"], rows := [[Value.vInt 2]] }] := by
  exact ⟨rfl, rfl, by decide⟩

/-- C5 amended: the default exchanger buffers the longest prefix of
batches with nonzero rows (reading stops at stream exhaustion or at the
first zero-row chunk); the output stream is always closed cleanly; when
nothing was buffered, in particular for an input of zero batches, the
output is begun with an empty schema and carries no rows; otherwise the
output schema is the buffered schema extended by one extra column named
processed, and every output row is the corresponding buffered input row
extended by the boolean value true, so the output carries exactly as
many rows as were buffered, each with one more column and its input
columns unchanged. -/
theorem default_exchanger_buffers_until_empty (incoming : List ATable) :
    (myStreamingExchange incoming).closed = true ∧
    (incoming.takeWhile nonEmptyBatch = [] →
      myStreamingExchange incoming = { schema := [], rows := [], closed := true }) ∧
    (∀ b rest, incoming.takeWhile nonEmptyBatch = b :: rest →
      (myStreamingExchange incoming).schema = b.schema ++ ["processed"] ∧
      (myStreamingExchange incoming).rows =
        (fromBatches (b :: rest)).rows.map (fun r => r ++ [Value.vBool true]) ∧
      (myStreamingExchange incoming).rows.length = totalRows (b :: rest)) := by
  refine ⟨?_, ?_, ?_⟩
  · rcases hk : incoming.takeWhile nonEmptyBatch with _ | ⟨b, rest⟩ <;>
      simp [myStreamingExchange, hk]
  · intro hk
    simp [myStreamingExchange, hk]
  · intro b rest hk
    have hrows : (myStreamingExchange incoming).rows =
        (fromBatches (b :: rest)).rows.map (fun r => r ++ [Value.vBool true]) := by
      simp only [myStreamingExchange, hk, ATable.appendColumn, ATable.numRows]
      exact zipWith_replicate_self_length (fun r v => r ++ [v])
        (Value.vBool true) (fromBatches (b :: rest)).rows
    refine ⟨?_, hrows, ?_⟩
    · simp [myStreamingExchange, hk, ATable.appendColumn, fromBatches]
    · rw [hrows, List.length_map]
      exact fromBatches_numRows (b :: rest)

/-- Witness for C5 amended: a concrete one-batch stream is augmented with
the all-true processed column, and an empty stream yields the empty
closed output. -/
theorem default_exchanger_buffers_until_empty_witness :
    (myStreamingExchange [{ schema := ["a"], rows := [[Value.vInt 5]] }]).schema =
      ["a", "processed"] ∧
    (myStreamingExchange [{ schema := ["a"], rows := [[Value.vInt 5]] }]).rows =
      [[Value.vInt 5, Value.vBool true]] ∧
    myStreamingExchange ([] : List ATable) =
      { schema := [], rows := [], closed := true } :=
  ⟨by
    have h := (default_exchanger_buffers_until_empty
        [{ schema := ["a"], rows := [[Value.vInt 5]] }]).2.2
        { schema := ["a"], rows := [[Value.vInt 5]] } [] (by decide)
    exact h.1,
   by
    have h := (default_exchanger_buffers_until_empty
        [{ schema := ["a"], rows := [[Value.vInt 5]] }]).2.2
        { schema := ["a"], rows := [[Value.vInt 5]] } [] (by decide)
    exact h.2.1.trans (by decide),
   (default_exchanger_buffers_until_empty ([] : List ATable)).2.1 rfl⟩

/-- C3: shutdown is idempotent and fleet shutdown is bounded. A second or
further shutdown call on any instance state is the identity, so it raises
nothing, closes neither the Flight server nor the engine connection a
second time, and leaves the state unchanged; the total fleet shutdown
procedure sets the event, clears the running list, uses the bounded join
timeout, and logs a warning for every serving thread still alive after
the join instead of blocking on it. -/
theorem shutdown_idempotent_and_bounded (s : SrvState) (m : Manager) :
    SrvState.shutdown (SrvState.shutdown s) = SrvState.shutdown s ∧
    (SrvState.shutdown (SrvState.shutdown s)).dbCloseCount =
      (SrvState.shutdown s).dbCloseCount ∧
    (SrvState.shutdown (SrvState.shutdown s)).flightShutdownCount =
      (SrvState.shutdown s).flightShutdownCount ∧
    (shutdownServers m).manager.runningServers = [] ∧
    (shutdownServers m).manager.shutdownEventSet = true ∧
    (shutdownServers m).joinTimeout = joinTimeoutSeconds ∧
    (∀ rs ∈ m.runningServers, rs.exitsWithinTimeout = false →
      ("Server thread for " ++ rs.serverId ++ " did not exit in time") ∈
        (shutdownServers m).warnings) := by
  have hidem : SrvState.shutdown (SrvState.shutdown s) = SrvState.shutdown s := by
    by_cases h : s.shutdownRequested
    · simp [SrvState.shutdown, h]
    · simp [SrvState.shutdown, h]
  refine ⟨hidem, by rw [hidem], by rw [hidem], rfl, rfl, rfl, ?_⟩
  intro rs hrs hex
  simp only [shutdownServers, List.mem_filterMap, List.mem_map]
  refine ⟨{ rs with srv := rs.srv.shutdown }, ⟨rs, hrs, rfl⟩, ?_⟩
  simp [hex]

/-- Witness for C3: a concrete manager with one running server whose
thread does not exit in time yields the warning, and double shutdown of a
concrete fresh state equals single shutdown. -/
theorem shutdown_idempotent_and_bounded_witness :
    SrvState.shutdown (SrvState.shutdown ⟨false, true, 0, 0⟩) =
      SrvState.shutdown ⟨false, true, 0, 0⟩ ∧
    ("Server thread for server1 did not exit in time") ∈
      (shutdownServers ⟨false, [⟨⟨false, true, 0, 0⟩, "server1", false⟩]⟩).warnings :=
  ⟨(shutdown_idempotent_and_bounded ⟨false, true, 0, 0⟩ ⟨false, []⟩).1,
   by
    have h := (shutdown_idempotent_and_bounded ⟨false, true, 0, 0⟩
        ⟨false, [⟨⟨false, true, 0, 0⟩, "server1", false⟩]⟩).2.2.2.2.2.2
        ⟨⟨false, true, 0, 0⟩, "server1", false⟩ (by decide) rfl
    simpa using h⟩

/-- C6: do_get decodes the ticket and branches on the DDL test. A DDL
ticket whose engine execution succeeds yields the mutated catalog state
together with the single-row status batch; a non-DDL ticket whose query
succeeds yields exactly the table the engine produced for that text, with
the engine-reported schema, and an unchanged catalog state; an engine
failure on either path propagates as the error of the call. -/
theorem do_get_ddl_vs_query {σ : Type} (runSql : String → Except String ATable)
    (execDdl : String → Except String σ) (st : σ) (ticket : String) :
    statusOkBatch.numRows = 1 ∧
    (∀ st2, isDdlStatement ticket = true → execDdl ticket = Except.ok st2 →
      doGet runSql execDdl st ticket =
        Except.ok (st2, GetReply.ddlStatus statusOkBatch)) ∧
    (∀ t, isDdlStatement ticket = false → runSql ticket = Except.ok t →
      doGet runSql execDdl st ticket =
        Except.ok (st, GetReply.queryResult t)) ∧
    (∀ msg, isDdlStatement ticket = true → execDdl ticket = Except.error msg →
      doGet runSql execDdl st ticket = Except.error msg) ∧
    (∀ msg, isDdlStatement ticket = false → runSql ticket = Except.error msg →
      doGet runSql execDdl st ticket = Except.error msg) := by
  refine ⟨rfl, ?_, ?_, ?_, ?_⟩
  · intro st2 hddl hexec
    simp [doGet, hddl, hexec]
  · intro t hddl hrun
    simp [doGet, hddl, hrun]
  · intro msg hddl hexec
    simp [doGet, hddl, hexec]
  · intro msg hddl hrun
    simp [doGet, hddl, hrun]

/-- Witness for C6: over a two-element catalog state type, a concrete DDL
ticket returns the status batch and the new state, a concrete query
ticket returns the engine table, and failing engines propagate their
message. -/
theorem do_get_ddl_vs_query_witness :
    doGet (fun _ => Except.ok { schema := ["x"], rows := [[Value.vInt 1]] })
        (fun _ => Except.ok 7) 0 "CREATE TABLE t (x INT)" =
      Except.ok (7, GetReply.ddlStatus statusOkBatch) ∧
    doGet (fun _ => Except.ok { schema := ["x"], rows := [[Value.vInt 1]] })
        (fun _ => Except.ok 7) 0 "SELECT 1" =
      Except.ok (0, GetReply.queryResult { schema := ["x"], rows := [[Value.vInt 1]] }) ∧
    doGet (fun _ => Except.error "boom") (fun _ => Except.error "boom")
        (0 : Nat) "DROP TABLE t" = Except.error "boom" ∧
    doGet (fun _ => Except.error "boom") (fun _ => Except.error "boom")
        (0 : Nat) "SELECT 1" = Except.error "boom" :=
  ⟨(do_get_ddl_vs_query
      (fun _ => Except.ok { schema := ["x"], rows := [[Value.vInt 1]] })
      (fun _ => Except.ok 7) 0 "CREATE TABLE t (x INT)").2.1 7 (by decide) rfl,
   (do_get_ddl_vs_query
      (fun _ => Except.ok { schema := ["x"], rows := [[Value.vInt 1]] })
      (fun _ => Except.ok 7) 0 "SELECT 1").2.2.1
      { schema := ["x"], rows := [[Value.vInt 1]] } (by decide) rfl,
   (do_get_ddl_vs_query (fun _ => Except.error "boom")
      (fun _ => Except.error "boom") (0 : Nat) "DROP TABLE t").2.2.2.1
      "boom" (by decide) rfl,
   (do_get_ddl_vs_query (fun _ => Except.error "boom")
      (fun _ => Except.error "boom") (0 : Nat) "SELECT 1").2.2.2.2
      "boom" (by decide) rfl⟩

/-- C7: with authentication enabled, a call whose headers lack an
authorization entry, or carry a scheme other than Basic or Bearer, or
carry Basic credentials that fail decoding or the password check, or a
Bearer token absent from the token table, is rejected by start_call with
the unauthenticated error; and whenever start_call rejects, the whole
call returns that error with no SQL executed against the engine and the
exchanger registry of the instance unchanged. -/
theorem auth_rejection_blocks_dispatch (s : ServerState)
    (b64decode : String → Option String) (freshToken : String)
    (headers : List (String × String)) (req : CallRequest) :
    (findAuthHeader headers = none →
      (startCall s.auth b64decode freshToken (findAuthHeader headers)).2 =
        Except.error "No credentials supplied") ∧
    (∀ hv, findAuthHeader headers = some hv →
      (partitionFirst hv ' ').1 ≠ "Basic" →
      (partitionFirst hv ' ').1 ≠ "Bearer" →
      (startCall s.auth b64decode freshToken (findAuthHeader headers)).2 =
        Except.error "Invalid authentication type") ∧
    (∀ hv, findAuthHeader headers = some hv →
      (partitionFirst hv ' ').1 = "Basic" →
      b64decode (partitionFirst hv ' ').2 = none →
      (startCall s.auth b64decode freshToken (findAuthHeader headers)).2 =
        Except.error "Authentication failed") ∧
    (∀ hv decoded, findAuthHeader headers = some hv →
      (partitionFirst hv ' ').1 = "Basic" →
      b64decode (partitionFirst hv ' ').2 = some decoded →
      dictGet s.auth.credentials (partitionFirst decoded ':').1 ≠
        some (partitionFirst decoded ':').2 →
      (startCall s.auth b64decode freshToken (findAuthHeader headers)).2 =
        Except.error "Authentication failed") ∧
    (∀ hv, findAuthHeader headers = some hv →
      (partitionFirst hv ' ').1 = "Bearer" →
      dictGet s.auth.tokens (partitionFirst hv ' ').2 = none →
      (startCall s.auth b64decode freshToken (findAuthHeader headers)).2 =
        Except.error "Invalid token") ∧
    (∀ auth2 msg, s.authEnabled = true →
      startCall s.auth b64decode freshToken (findAuthHeader headers) =
        (auth2, Except.error msg) →
      serverCall s b64decode freshToken headers req =
        ({ s with auth := auth2 }, [], Except.error msg)) := by
  refine ⟨?_, ?_, ?_, ?_, ?_, ?_⟩
  · intro h
    rw [h]
    rfl
  · intro hv h hb hr
    rw [h]
    simp [startCall, hb, hr]
  · intro hv h hb hdec
    rw [h]
    simp [startCall, handleBasicAuth, hb, hdec]
  · intro hv decoded h hb hdec hcred
    rw [h]
    simp [startCall, handleBasicAuth, hb, hdec, hcred]
  · intro hv h hb htok
    rw [h]
    simp [startCall, handleTokenAuth, hb, htok]
  · intro auth2 msg hen hstart
    simp [serverCall, hen, hstart]

/-- Witness for C7: on a concrete enabled-auth server state, each
rejection shape is exercised: no header, unknown scheme, undecodable
Basic value, wrong Basic password, unknown Bearer token; and the rejected
call leaves the concrete server unchanged with no executed SQL. -/
theorem auth_rejection_blocks_dispatch_witness :
    (startCall { credentials := [("admin", "password123")], tokens := [] }
      (fun _ => some "admin:wrong") "tok" (findAuthHeader [])).2 =
      Except.error "No credentials supplied" ∧
    (startCall { credentials := [("admin", "password123")], tokens := [] }
      (fun _ => some "admin:wrong") "tok"
      (findAuthHeader [("authorization", "Digest xyz")])).2 =
      Except.error "Invalid authentication type" ∧
    (startCall { credentials := [("admin", "password123")], tokens := [] }
      (fun _ => none) "tok"
      (findAuthHeader [("authorization", "Basic garbled")])).2 =
      Except.error "Authentication failed" ∧
    (startCall { credentials := [("admin", "password123")], tokens := [] }
      (fun _ => some "admin:wrong") "tok"
      (findAuthHeader [("Authorization", "Basic QQ")])).2 =
      Except.error "Authentication failed" ∧
    (startCall { credentials := [("admin", "password123")], tokens := [] }
      (fun _ => some "admin:wrong") "tok"
      (findAuthHeader [("authorization", "Bearer unknown")])).2 =
      Except.error "Invalid token" ∧
    serverCall
      { exchangers := [(myStreamingCommand, ExchangerImpl.myStreaming)],
        authEnabled := true,
        auth := { credentials := [("admin", "password123")], tokens := [] } }
      (fun _ => some "admin:wrong") "tok" []
      (CallRequest.exchange "SELECT 1") =
      ({ exchangers := [(myStreamingCommand, ExchangerImpl.myStreaming)],
         authEnabled := true,
         auth := { credentials := [("admin", "password123")], tokens := [] } },
       [], Except.error "No credentials supplied") :=
  ⟨(auth_rejection_blocks_dispatch
      { exchangers := [], authEnabled := true,
        auth := { credentials := [("admin", "password123")], tokens := [] } }
      (fun _ => some "admin:wrong") "tok" [] (CallRequest.exchange "x")).1 rfl,
   (auth_rejection_blocks_dispatch
      { exchangers := [], authEnabled := true,
        auth := { credentials := [("admin", "password123")], tokens := [] } }
      (fun _ => some "admin:wrong") "tok" [("authorization", "Digest xyz")]
      (CallRequest.exchange "x")).2.1 "Digest xyz" rfl (by decide) (by decide),
   (auth_rejection_blocks_dispatch
      { exchangers := [], authEnabled := true,
        auth := { credentials := [("admin", "password123")], tokens := [] } }
      (fun _ => none) "tok" [("authorization", "Basic garbled")]
      (CallRequest.exchange "x")).2.2.1 "Basic garbled" rfl (by decide) rfl,
   (auth_rejection_blocks_dispatch
      { exchangers := [], authEnabled := true,
        auth := { credentials := [("admin", "password123")], tokens := [] } }
      (fun _ => some "admin:wrong") "tok" [("Authorization", "Basic QQ")]
      (CallRequest.exchange "x")).2.2.2.1 "Basic QQ" "admin:wrong"
      (by decide) (by decide) rfl (by decide),
   (auth_rejection_blocks_dispatch
      { exchangers := [], authEnabled := true,
        auth := { credentials := [("admin", "password123")], tokens := [] } }
      (fun _ => some "admin:wrong") "tok" [("authorization", "Bearer unknown")]
      (CallRequest.exchange "x")).2.2.2.2.1 "Bearer unknown" rfl (by decide) rfl,
   (auth_rejection_blocks_dispatch
      { exchangers := [(myStreamingCommand, ExchangerImpl.myStreaming)],
        authEnabled := true,
        auth := { credentials := [("admin", "password123")], tokens := [] } }
      (fun _ => some "admin:wrong") "tok" []
      (CallRequest.exchange "SELECT 1")).2.2.2.2.2
      { credentials := [("admin", "password123")], tokens := [] }
      "No credentials supplied" rfl rfl⟩

/-- C10: a ServerConfig constructed without an explicit credential set
carries exactly the single admin entry with the secret password123, and
one constructed without a server identifier receives the token_hex of the
four fresh random bytes: a string of eight lowercase hexadecimal
characters. -/
theorem server_config_defaults (location dbPath : String) (authEnabled : Bool)
    (randBytes : List Nat) (h4 : randBytes.length = 4) :
    (mkServerConfig location dbPath none authEnabled none randBytes).credentials =
      [("admin", "password123")] ∧
    (mkServerConfig location dbPath none authEnabled none randBytes).serverId =
      tokenHex randBytes ∧
    (tokenHex randBytes).length = 8 ∧
    (∀ c ∈ (tokenHex randBytes).toList, c ∈ hexChars) := by
  refine ⟨rfl, rfl, ?_, ?_⟩
  · have hlen : (tokenHexChars randBytes).length = 2 * randBytes.length :=
      tokenHexChars_length randBytes
    have : (tokenHex randBytes).length = (tokenHexChars randBytes).length := rfl
    rw [this, hlen, h4]
  · intro c hc
    have hc2 : c ∈ tokenHexChars randBytes := hc
    have hc3 : c ∈ randBytes.flatMap hexPair := hc2
    rcases List.mem_flatMap.mp hc3 with ⟨b, _, hcb⟩
    rcases (by simpa [hexPair] using hcb :
        c = hexDigitChar (b % 256 / 16) ∨ c = hexDigitChar (b % 16)) with h | h
    · rw [h]; exact hexDigitChar_mem (b % 256 / 16)
    · rw [h]; exact hexDigitChar_mem (b % 16)

/-- Witness for C10: the defaults at a concrete draw of four random
bytes. -/
theorem server_config_defaults_witness :
    (mkServerConfig "grpc://localhost:8815" ":memory:" none false none
      [0, 255, 16, 171]).credentials = [("admin", "password123")] ∧
    (mkServerConfig "grpc://localhost:8815" ":memory:" none false none
      [0, 255, 16, 171]).serverId = tokenHex [0, 255, 16, 171] ∧
    (tokenHex [0, 255, 16, 171]).length = 8 ∧
    (∀ c ∈ (tokenHex [0, 255, 16, 171]).toList, c ∈ hexChars) :=
  server_config_defaults "grpc://localhost:8815" ":memory:" false
    [0, 255, 16, 171] (by decide)

end Mallard
